import Mathlib

/-!
# fxzerolog: the Fx event logger backed by zerolog

A shallow embedding of `src/fxzerolog.go`.  The adapter `ZerologLogger.LogEvent`
maps one Fx lifecycle event to a sequence of zerolog call chains
`WithLevel(level).Str(..)...Msg(message)`.

Two external libraries are involved and are modelled only as far as the adapter
uses them:

* `github.com/rs/zerolog`: levels, `Logger.should`, `Logger.WithLevel`, the field
  methods of `*Event` and `Event.Msg`;
* `go.uber.org/fx/fxevent`: the event structs, with the attributes the adapter reads.

Go values are modelled as follows: `error` is `Option String` (`none` is `nil`,
`some m` is a non-nil error whose `Error()` is `m`), `time.Duration` is an `Int`
count of nanoseconds, `[]string` is `List String` (a nil slice is the empty list),
`os.Signal` is `Option String` (`none` is the nil interface, `some s` a signal whose
`String()` is `s`).
-/

namespace Fxzerolog

/-! ## zerolog levels -/

/-- The zerolog type `Level` (an `int8` in Go). -/
abbrev Level := Int

/-- The zerolog constant `DebugLevel` (the first `iota`, hence the zero value of `Level`). -/
def DebugLevel : Level := 0
/-- The zerolog constant `InfoLevel`. -/
def InfoLevel : Level := 1
/-- The zerolog constant `WarnLevel`. -/
def WarnLevel : Level := 2
/-- The zerolog constant `ErrorLevel`. -/
def ErrorLevel : Level := 3
/-- The zerolog constant `FatalLevel`. -/
def FatalLevel : Level := 4
/-- The zerolog constant `PanicLevel`. -/
def PanicLevel : Level := 5
/-- The zerolog constant `NoLevel`. -/
def NoLevel : Level := 6
/-- The zerolog constant `Disabled`. -/
def Disabled : Level := 7
/-- The zerolog constant `TraceLevel`. -/
def TraceLevel : Level := -1

/-- The zerolog method `Level.String`: the text of the `level` key of a written line. -/
def Level.String (l : Level) : String :=
  if l = TraceLevel then "trace"
  else if l = DebugLevel then "debug"
  else if l = InfoLevel then "info"
  else if l = WarnLevel then "warn"
  else if l = ErrorLevel then "error"
  else if l = FatalLevel then "fatal"
  else if l = PanicLevel then "panic"
  else if l = Disabled then "disabled"
  else if l = NoLevel then ""
  else toString l

/-! ## Go `time.Duration.String` -/

/-- Go `time.Microsecond` in nanoseconds. -/
def Microsecond : Nat := 1000
/-- Go `time.Millisecond` in nanoseconds. -/
def Millisecond : Nat := 1000 * Microsecond
/-- Go `time.Second` in nanoseconds. -/
def Second : Nat := 1000 * Millisecond

/-- Loop of Go `fmtInt`: the decimal digits of a positive `v`, most significant first. -/
def fmtIntLoop : Nat → Nat → List Char → List Char
  | 0, _, acc => acc
  | fuel + 1, v, acc =>
    if v = 0 then acc else fmtIntLoop fuel (v / 10) (Nat.digitChar (v % 10) :: acc)

/-- Go `fmtInt`: `v` in decimal (a `uint64` has at most 20 digits). -/
def fmtInt (v : Nat) : String :=
  if v = 0 then "0" else String.mk (fmtIntLoop 20 v [])

/-- Loop of Go `fmtFrac`: `prec` digits from the right, none printed before the first
non-zero one. -/
def fmtFracLoop : Nat → Nat → Bool → List Char → List Char × Bool × Nat
  | 0, v, print, acc => (acc, print, v)
  | i + 1, v, print, acc =>
    let digit := v % 10
    let print1 := print || digit != 0
    fmtFracLoop i (v / 10) print1 (if print1 then Nat.digitChar digit :: acc else acc)

/-- Go `fmtFrac`: the fraction of `v / 10^prec` without trailing zeros (and without the
point when it is zero), and the integer part `v / 10^prec`. -/
def fmtFrac (v prec : Nat) : String × Nat :=
  let r := fmtFracLoop prec v false []
  (if r.2.1 then String.mk ('.' :: r.1) else String.mk r.1, r.2.2)

/-- Go `time.Duration.String` on a duration of `d` nanoseconds. -/
def Duration.String (d : Int) : String :=
  let u := d.natAbs
  let body :=
    if u < Second then
      if u = 0 then "0s"
      else if u < Microsecond then
        let r := fmtFrac u 0
        fmtInt r.2 ++ r.1 ++ "ns"
      else if u < Millisecond then
        let r := fmtFrac u 3
        fmtInt r.2 ++ r.1 ++ "µs"
      else
        let r := fmtFrac u 6
        fmtInt r.2 ++ r.1 ++ "ms"
    else
      let r := fmtFrac u 9
      let secs := fmtInt (r.2 % 60) ++ r.1 ++ "s"
      let mins := r.2 / 60
      if mins > 0 then
        let hours := mins / 60
        if hours > 0 then fmtInt hours ++ "h" ++ (fmtInt (mins % 60) ++ "m" ++ secs)
        else fmtInt (mins % 60) ++ "m" ++ secs
      else secs
  if d < 0 then "-" ++ body else body

/-! ## zerolog logger, event builder and written records -/

/-- The value of a field of a log record: `Str`, `Strs` and `Bool` of zerolog. -/
inductive Value where
  | str (s : String)
  | strs (ss : List String)
  | bool (b : Bool)
  deriving DecidableEq, Repr

/-- A key with its value. -/
abbrev Field := String × Value

/-- A zerolog `Logger` as built by `zerolog.New(w)`: its own minimum level, and the
process-wide `GlobalLevel()` that `should` reads (kept here, the embedding has no
global state).  No sampler, hook or context. -/
structure Logger where
  level : Level
  globalLevel : Level
  deriving DecidableEq, Repr

/-- The zerolog method `Logger.should`: is an event of level `lvl` to be logged. -/
def Logger.should (l : Logger) (lvl : Level) : Bool :=
  if lvl < l.level || lvl < l.globalLevel then false else true

/-- A zerolog `*Event`.  The nil event that `WithLevel` returns for a level that is not
logged is the value with `enabled = false`: zerolog's methods do nothing on it and
`Msg` writes nothing.  The fields the adapter passes are kept on it all the same, so
that what the adapter asks for can be told apart from what the logger lets through. -/
structure ZEvent where
  enabled : Bool
  level : Level
  fields : List Field
  deriving DecidableEq, Repr

/-- The zerolog method `Logger.WithLevel`: nil for `Disabled`, otherwise
`newEvent(level, nil)`, which is nil exactly when `should(level)` is false. -/
def Logger.WithLevel (l : Logger) (level : Level) : ZEvent :=
  if level = Disabled then ⟨false, level, []⟩ else ⟨l.should level, level, []⟩

/-- The zerolog method `Event.Str`. -/
def ZEvent.Str (e : ZEvent) (k v : String) : ZEvent :=
  { e with fields := e.fields ++ [(k, Value.str v)] }

/-- The zerolog method `Event.Strs`. -/
def ZEvent.Strs (e : ZEvent) (k : String) (vs : List String) : ZEvent :=
  { e with fields := e.fields ++ [(k, Value.strs vs)] }

/-- The zerolog method `Event.Bool`. -/
def ZEvent.Bool (e : ZEvent) (k : String) (b : Bool) : ZEvent :=
  { e with fields := e.fields ++ [(k, Value.bool b)] }

/-- The zerolog method `Event.Err`: no field for a nil error, otherwise the key
`error` with the error's message. -/
def ZEvent.Err (e : ZEvent) (err : Option String) : ZEvent :=
  match err with
  | none => e
  | some m => e.Str "error" m

/-- A log record: the severity, the fields in the order they were attached, the message. -/
structure Record where
  level : Level
  fields : List Field
  message : String
  deriving DecidableEq, Repr

/-- One finished call chain: the record the adapter asked for, and whether the logger
wrote it to its sink. -/
structure Emission where
  record : Record
  written : Bool
  deriving DecidableEq, Repr

/-- The zerolog method `Event.Msg`: finishes the record; it is written unless the event
is nil. -/
def ZEvent.Msg (e : ZEvent) (msg : String) : Emission :=
  ⟨⟨e.level, e.fields, msg⟩, e.enabled⟩

/-- The keys of a record. -/
def Record.keys (r : Record) : List String := r.fields.map Prod.fst

/-- The text of the `level` key of the written line: `newEvent` adds it unless the level
is `NoLevel`. -/
def Record.levelField (r : Record) : Option String :=
  if r.level = NoLevel then none else some r.level.String

/-! ## fxevent events -/

/-- The events of `fxevent` that `LogEvent` has a case for, with the attributes it
reads; `Unhandled` stands for every other dynamic type (the switch has no default). -/
inductive Event where
  | OnStartExecuting (FunctionName CallerName : String)
  | OnStartExecuted (FunctionName CallerName : String) (Runtime : Int) (Err : Option String)
  | OnStopExecuting (FunctionName CallerName : String)
  | OnStopExecuted (FunctionName CallerName : String) (Runtime : Int) (Err : Option String)
  | Supplied (TypeName : String) (StackTrace ModuleTrace : List String) (ModuleName : String)
      (Err : Option String)
  | Provided (ConstructorName : String) (StackTrace ModuleTrace OutputTypeNames : List String)
      (ModuleName : String) (Err : Option String) (Private : Bool)
  | Replaced (OutputTypeNames StackTrace ModuleTrace : List String) (ModuleName : String)
      (Err : Option String)
  | Decorated (DecoratorName : String) (StackTrace ModuleTrace : List String)
      (ModuleName : String) (OutputTypeNames : List String) (Err : Option String)
  | Run (Name Kind ModuleName : String) (Runtime : Int) (Err : Option String)
  | Invoking (FunctionName ModuleName : String)
  | Invoked (FunctionName ModuleName : String) (Err : Option String) (Trace : String)
  | Stopping (Signal : Option String)
  | Stopped (Err : Option String)
  | RollingBack (StartErr : Option String)
  | RolledBack (Err : Option String)
  | Started (Err : Option String)
  | LoggerInitialized (Err : Option String) (ConstructorName : String)
  | Unhandled
  deriving DecidableEq, Repr

/-- The error attribute of an event: `Err`, or `StartErr` for `RollingBack`; `none` when
it is nil or the event has no such attribute. -/
def Event.err : Event → Option String
  | .OnStartExecuted _ _ _ e => e
  | .OnStopExecuted _ _ _ e => e
  | .Supplied _ _ _ _ e => e
  | .Provided _ _ _ _ _ e _ => e
  | .Replaced _ _ _ _ e => e
  | .Decorated _ _ _ _ _ e => e
  | .Run _ _ _ _ e => e
  | .Invoked _ _ e _ => e
  | .Stopped e => e
  | .RollingBack e => e
  | .RolledBack e => e
  | .Started e => e
  | .LoggerInitialized e _ => e
  | _ => none

/-- The `OutputTypeNames` attribute; empty for the events that have none. -/
def Event.outputTypeNames : Event → List String
  | .Provided _ _ _ ts _ _ _ => ts
  | .Replaced ts _ _ _ _ => ts
  | .Decorated _ _ _ _ ts _ => ts
  | _ => []

/-- The `ModuleName` attribute, for the events that have one. -/
def Event.moduleName : Event → Option String
  | .Supplied _ _ _ m _ => some m
  | .Provided _ _ _ _ m _ _ => some m
  | .Replaced _ _ _ m _ => some m
  | .Decorated _ _ _ m _ _ => some m
  | .Run _ _ m _ _ => some m
  | .Invoking _ m => some m
  | .Invoked _ m _ _ => some m
  | _ => none

/-- The `Private` flag, for the event that has one. -/
def Event.isPrivate : Event → Option Bool
  | .Provided _ _ _ _ _ _ p => some p
  | _ => none

/-! ## The adapter -/

/-- The struct `ZerologLogger`: `errorLevel` is a pointer in Go, nil until
`UseErrorLevel` is called. -/
structure ZerologLogger where
  Logger : Logger
  logLevel : Level
  errorLevel : Option Level
  deriving DecidableEq, Repr

/-- The Go literal `&ZerologLogger{Logger: core}`: the other fields have their zero
values. -/
def ZerologLogger.ofLogger (core : Fxzerolog.Logger) : ZerologLogger := ⟨core, 0, none⟩

/-- The method `UseLogLevel`. -/
def ZerologLogger.UseLogLevel (l : ZerologLogger) (level : Level) : ZerologLogger :=
  { l with logLevel := level }

/-- The method `UseErrorLevel`. -/
def ZerologLogger.UseErrorLevel (l : ZerologLogger) (level : Level) : ZerologLogger :=
  { l with errorLevel := some level }

/-- The method `logEvent`. -/
def ZerologLogger.logEvent (l : ZerologLogger) : ZEvent :=
  l.Logger.WithLevel l.logLevel

/-- The method `errorLogEvent`. -/
def ZerologLogger.errorLogEvent (l : ZerologLogger) : ZEvent :=
  match l.errorLevel with
  | some lvl => l.Logger.WithLevel lvl
  | none => l.Logger.WithLevel ErrorLevel

/-- The function `maybeStringField`. -/
def maybeStringField (event : ZEvent) (k v : String) : ZEvent :=
  if v.length = 0 then event else event.Str k v

/-- The function `maybeBoolField`. -/
def maybeBoolField (event : ZEvent) (k : String) (v : Bool) : ZEvent :=
  if v then event.Bool k v else event

/-- The method `LogEvent`: the call chains it runs, in order, each with the record asked
for and whether the logger wrote it; `Except.error` is a Go panic (the nil `Signal` of
`Stopping`, dereferenced before any record of that event is finished).  Go's
`strings.ToUpper` is `String.toUpper`, which agrees with it on ASCII signal names. -/
def ZerologLogger.LogEvent (l : ZerologLogger) (event : Event) : Except String (List Emission) :=
  match event with
  | .OnStartExecuting FunctionName CallerName =>
    .ok [((l.logEvent.Str "callee" FunctionName).Str "caller" CallerName).Msg
      "OnStart hook executing"]
  | .OnStartExecuted FunctionName CallerName Runtime Err =>
    if Err ≠ none then
      .ok [(((l.errorLogEvent.Str "callee" FunctionName).Str "caller" CallerName).Err Err).Msg
        "OnStart hook failed"]
    else
      .ok [(((l.logEvent.Str "callee" FunctionName).Str "caller" CallerName).Str "runtime"
        (Duration.String Runtime)).Msg "OnStart hook executed"]
  | .OnStopExecuting FunctionName CallerName =>
    .ok [((l.logEvent.Str "callee" FunctionName).Str "caller" CallerName).Msg
      "OnStop hook executing"]
  | .OnStopExecuted FunctionName CallerName Runtime Err =>
    if Err ≠ none then
      .ok [(((l.errorLogEvent.Str "callee" FunctionName).Str "caller" CallerName).Err Err).Msg
        "OnStop hook failed"]
    else
      .ok [(((l.logEvent.Str "callee" FunctionName).Str "caller" CallerName).Str "runtime"
        (Duration.String Runtime)).Msg "OnStop hook executed"]
  | .Supplied TypeName StackTrace ModuleTrace ModuleName Err =>
    if Err ≠ none then
      let zEvent := ((l.errorLogEvent.Str "type" TypeName).Strs "stacktrace" StackTrace).Strs
        "moduletrace" ModuleTrace
      .ok [((maybeStringField zEvent "module" ModuleName).Err Err).Msg
        "error encountered while applying options"]
    else
      let zEvent := ((l.logEvent.Str "type" TypeName).Strs "stacktrace" StackTrace).Strs
        "moduletrace" ModuleTrace
      .ok [((maybeStringField zEvent "module" ModuleName).Err Err).Msg "supplied"]
  | .Provided ConstructorName StackTrace ModuleTrace OutputTypeNames ModuleName Err Private =>
    let perType := OutputTypeNames.map fun rtype =>
      let zEvent := ((l.logEvent.Str "constructor" ConstructorName).Strs "stacktrace"
        StackTrace).Strs "moduletrace" ModuleTrace
      let zEvent1 := (maybeStringField zEvent "module" ModuleName).Str "type" rtype
      (maybeBoolField zEvent1 "private" Private).Msg "provided"
    if Err ≠ none then
      .ok (perType ++ [(((l.errorLogEvent.Strs "stacktrace" StackTrace).Strs "moduletrace"
        ModuleTrace).Err Err).Msg "error encountered while applying options"])
    else .ok perType
  | .Replaced OutputTypeNames StackTrace ModuleTrace ModuleName Err =>
    let perType := OutputTypeNames.map fun rtype =>
      let zEvent := (l.logEvent.Strs "stacktrace" StackTrace).Strs "moduletrace" ModuleTrace
      ((maybeStringField zEvent "module" ModuleName).Str "type" rtype).Msg "replaced"
    if Err ≠ none then
      let zEvent := (l.errorLogEvent.Strs "stacktrace" StackTrace).Strs "moduletrace"
        ModuleTrace
      .ok (perType ++ [((maybeStringField zEvent "module" ModuleName).Err Err).Msg
        "error encountered while replacing"])
    else .ok perType
  | .Decorated DecoratorName StackTrace ModuleTrace ModuleName OutputTypeNames Err =>
    let perType := OutputTypeNames.map fun rtype =>
      let zEvent := ((l.logEvent.Str "decorator" DecoratorName).Strs "stacktrace"
        StackTrace).Strs "moduletrace" ModuleTrace
      ((maybeStringField zEvent "module" ModuleName).Str "type" rtype).Msg "decorated"
    if Err ≠ none then
      let zEvent := (l.errorLogEvent.Strs "stacktrace" StackTrace).Strs "moduletrace"
        ModuleTrace
      .ok (perType ++ [((maybeStringField zEvent "module" ModuleName).Err Err).Msg
        "error encountered while applying options"])
    else .ok perType
  | .Run Name Kind ModuleName Runtime Err =>
    if Err ≠ none then
      let zEvent := (l.errorLogEvent.Str "name" Name).Str "kind" Kind
      .ok [((maybeStringField zEvent "module" ModuleName).Err Err).Msg "error returned"]
    else
      let zEevent := ((l.logEvent.Str "name" Name).Str "kind" Kind).Str "runtime"
        (Duration.String Runtime)
      .ok [(maybeStringField zEevent "module" ModuleName).Msg "run"]
  | .Invoking FunctionName ModuleName =>
    let zEvent := l.logEvent.Str "function" FunctionName
    .ok [(maybeStringField zEvent "module" ModuleName).Msg "invoking"]
  | .Invoked FunctionName ModuleName Err Trace =>
    if Err ≠ none then
      let zEvent := ((l.errorLogEvent.Err Err).Str "stack" Trace).Str "function" FunctionName
      .ok [(maybeStringField zEvent "module" ModuleName).Msg "invoke failed"]
    else .ok []
  | .Stopping Signal =>
    match Signal with
    | none => .error "invalid memory address or nil pointer dereference"
    | some name => .ok [(l.logEvent.Str "signal" name.toUpper).Msg "received signal"]
  | .Stopped Err =>
    if Err ≠ none then .ok [(l.errorLogEvent.Err Err).Msg "stop failed"] else .ok []
  | .RollingBack StartErr =>
    .ok [(l.errorLogEvent.Err StartErr).Msg "start failed, rolling back"]
  | .RolledBack Err =>
    if Err ≠ none then .ok [(l.errorLogEvent.Err Err).Msg "rollback failed"] else .ok []
  | .Started Err =>
    if Err ≠ none then .ok [(l.errorLogEvent.Err Err).Msg "start failed"]
    else .ok [l.logEvent.Msg "started"]
  | .LoggerInitialized Err ConstructorName =>
    if Err ≠ none then
      .ok [(l.errorLogEvent.Err Err).Msg "custom logger initialization failed"]
    else
      .ok [(l.logEvent.Str "function" ConstructorName).Msg "initialized custom fxevent.Logger"]
  | .Unhandled => .ok []

/-- The call chains one call of `LogEvent` finishes (none when it panics). -/
def ZerologLogger.log (l : ZerologLogger) (event : Event) : List Emission :=
  match l.LogEvent event with
  | .ok es => es
  | .error _ => []

/-- The records `LogEvent` emits: one for each finished call chain, in order, whether or
not the logger lets it through. -/
def ZerologLogger.emitted (l : ZerologLogger) (event : Event) : List Record :=
  (l.log event).map Emission.record

/-- The records `LogEvent` delivers to the sink: the emitted records that the logger
writes. -/
def ZerologLogger.delivered (l : ZerologLogger) (event : Event) : List Record :=
  ((l.log event).filter Emission.written).map Emission.record

/-- The severity of error records: `errorLevel` when set, zerolog's `ErrorLevel` otherwise. -/
def ZerologLogger.errorSeverity (l : ZerologLogger) : Level :=
  l.errorLevel.getD ErrorLevel

/-- The logger of the tests, `newZerologObservableLogger(level)`: `zerolog.New(writer)`
(own level `TraceLevel`) under `zerolog.SetGlobalLevel(level)`. -/
def newZerologObservableLogger (level : Level) : Logger := ⟨TraceLevel, level⟩

/-- The active threshold of a logger: the least level that `should` accepts. -/
def Logger.threshold (l : Logger) : Level := max l.level l.globalLevel

/-- The value of the field `k` of a record, if it has that key. -/
def Record.get? (r : Record) (k : String) : Option Value := r.fields.lookup k

/-- The shape of the records of an event with output type names `ts` and error `err`:
one record for each type name, in order, with message `msg` and the type name as its
type field, followed by one record carrying the error's message exactly when there is an
error. -/
def fanOutShape (msg : String) (ts : List String) (err : Option String) (rs : List Record) :
    Prop :=
  rs.length = ts.length + (if err = none then 0 else 1)
  ∧ (rs.take ts.length).map (fun r => (r.message, r.get? "type"))
      = ts.map (fun t => (msg, some (Value.str t)))
  ∧ (rs.drop ts.length).map (fun r => r.get? "error")
      = err.toList.map (fun m => some (Value.str m))

instance (msg : String) (ts : List String) (err : Option String) (rs : List Record) :
    Decidable (fanOutShape msg ts err rs) := by
  unfold fanOutShape; infer_instance

/-! ## Lemmas on the event builder -/

@[simp] theorem WithLevel_level (l : Logger) (lvl : Level) : (l.WithLevel lvl).level = lvl := by
  unfold Logger.WithLevel; split <;> rfl

@[simp] theorem WithLevel_fields (l : Logger) (lvl : Level) : (l.WithLevel lvl).fields = [] := by
  unfold Logger.WithLevel; split <;> rfl

@[simp] theorem WithLevel_enabled (l : Logger) (lvl : Level) :
    (l.WithLevel lvl).enabled = (decide (lvl ≠ Disabled) && l.should lvl) := by
  unfold Logger.WithLevel; split <;> simp_all

@[simp] theorem logEvent_level (l : ZerologLogger) : l.logEvent.level = l.logLevel := by
  simp [ZerologLogger.logEvent]

@[simp] theorem logEvent_fields (l : ZerologLogger) : l.logEvent.fields = [] := by
  simp [ZerologLogger.logEvent]

@[simp] theorem logEvent_enabled (l : ZerologLogger) :
    l.logEvent.enabled = (decide (l.logLevel ≠ Disabled) && l.Logger.should l.logLevel) := by
  simp [ZerologLogger.logEvent]

@[simp] theorem errorLogEvent_level (l : ZerologLogger) :
    l.errorLogEvent.level = l.errorSeverity := by
  unfold ZerologLogger.errorLogEvent ZerologLogger.errorSeverity
  cases l.errorLevel <;> simp

@[simp] theorem errorLogEvent_fields (l : ZerologLogger) : l.errorLogEvent.fields = [] := by
  unfold ZerologLogger.errorLogEvent
  cases l.errorLevel <;> simp

@[simp] theorem errorLogEvent_enabled (l : ZerologLogger) :
    l.errorLogEvent.enabled
      = (decide (l.errorSeverity ≠ Disabled) && l.Logger.should l.errorSeverity) := by
  unfold ZerologLogger.errorLogEvent ZerologLogger.errorSeverity
  cases l.errorLevel <;> simp

@[simp] theorem Str_level (e : ZEvent) (k v : String) : (e.Str k v).level = e.level := rfl
@[simp] theorem Str_enabled (e : ZEvent) (k v : String) : (e.Str k v).enabled = e.enabled := rfl
@[simp] theorem Str_fields (e : ZEvent) (k v : String) :
    (e.Str k v).fields = e.fields ++ [(k, Value.str v)] := rfl
@[simp] theorem Strs_level (e : ZEvent) (k : String) (vs : List String) :
    (e.Strs k vs).level = e.level := rfl
@[simp] theorem Strs_enabled (e : ZEvent) (k : String) (vs : List String) :
    (e.Strs k vs).enabled = e.enabled := rfl
@[simp] theorem Strs_fields (e : ZEvent) (k : String) (vs : List String) :
    (e.Strs k vs).fields = e.fields ++ [(k, Value.strs vs)] := rfl
@[simp] theorem Bool_level (e : ZEvent) (k : String) (b : Bool) :
    (e.Bool k b).level = e.level := rfl
@[simp] theorem Bool_enabled (e : ZEvent) (k : String) (b : Bool) :
    (e.Bool k b).enabled = e.enabled := rfl
@[simp] theorem Bool_fields (e : ZEvent) (k : String) (b : Bool) :
    (e.Bool k b).fields = e.fields ++ [(k, Value.bool b)] := rfl

@[simp] theorem Err_level (e : ZEvent) (err : Option String) : (e.Err err).level = e.level := by
  cases err <;> rfl
@[simp] theorem Err_enabled (e : ZEvent) (err : Option String) :
    (e.Err err).enabled = e.enabled := by
  cases err <;> rfl
@[simp] theorem Err_fields_none (e : ZEvent) : (e.Err none).fields = e.fields := rfl
@[simp] theorem Err_fields_some (e : ZEvent) (m : String) :
    (e.Err (some m)).fields = e.fields ++ [("error", Value.str m)] := rfl

@[simp] theorem maybeStringField_level (e : ZEvent) (k v : String) :
    (maybeStringField e k v).level = e.level := by
  unfold maybeStringField; split <;> rfl
@[simp] theorem maybeStringField_enabled (e : ZEvent) (k v : String) :
    (maybeStringField e k v).enabled = e.enabled := by
  unfold maybeStringField; split <;> rfl
theorem maybeStringField_fields (e : ZEvent) (k v : String) :
    (maybeStringField e k v).fields
      = e.fields ++ (if v = "" then [] else [(k, Value.str v)]) := by
  unfold maybeStringField
  by_cases h : v = ""
  · subst h; simp
  · have h2 : v.length ≠ 0 := by
      intro h0
      apply h
      cases v with
      | mk data =>
        have : data = [] := List.length_eq_zero.mp h0
        subst this; rfl
    simp [h, h2]

@[simp] theorem maybeBoolField_level (e : ZEvent) (k : String) (v : Bool) :
    (maybeBoolField e k v).level = e.level := by
  unfold maybeBoolField; split <;> rfl
@[simp] theorem maybeBoolField_enabled (e : ZEvent) (k : String) (v : Bool) :
    (maybeBoolField e k v).enabled = e.enabled := by
  unfold maybeBoolField; split <;> rfl
theorem maybeBoolField_fields (e : ZEvent) (k : String) (v : Bool) :
    (maybeBoolField e k v).fields
      = e.fields ++ (if v then [(k, Value.bool true)] else []) := by
  unfold maybeBoolField
  cases v <;> simp

@[simp] theorem Msg_record (e : ZEvent) (msg : String) :
    (e.Msg msg).record = ⟨e.level, e.fields, msg⟩ := rfl
@[simp] theorem Msg_written (e : ZEvent) (msg : String) : (e.Msg msg).written = e.enabled := rfl

/-! ## The hook events -/

/-- C1: the four hook events.  `OnStartExecuting` and `OnStopExecuting` emit exactly one
record at `logLevel` with fields callee and caller; `OnStartExecuted` and `OnStopExecuted`
with a nil error emit exactly one record at `logLevel` with callee, caller and the runtime
rendered by `Duration.String`; with a non-nil error they emit exactly one record at the
error severity (`errorLevel` when set, zerolog's `ErrorLevel` otherwise) with callee, caller
and the error's message, and no runtime.  The runtime of the tests, 3ms, renders as "3ms". -/
theorem C1_hook_records (l : ZerologLogger) (f c : String) (d : Int) (m : String) :
    l.emitted (.OnStartExecuting f c)
        = [⟨l.logLevel, [("callee", .str f), ("caller", .str c)], "OnStart hook executing"⟩]
    ∧ l.emitted (.OnStopExecuting f c)
        = [⟨l.logLevel, [("callee", .str f), ("caller", .str c)], "OnStop hook executing"⟩]
    ∧ l.emitted (.OnStartExecuted f c d none)
        = [⟨l.logLevel, [("callee", .str f), ("caller", .str c),
            ("runtime", .str (Duration.String d))], "OnStart hook executed"⟩]
    ∧ l.emitted (.OnStopExecuted f c d none)
        = [⟨l.logLevel, [("callee", .str f), ("caller", .str c),
            ("runtime", .str (Duration.String d))], "OnStop hook executed"⟩]
    ∧ l.emitted (.OnStartExecuted f c d (some m))
        = [⟨l.errorLevel.getD ErrorLevel,
            [("callee", .str f), ("caller", .str c), ("error", .str m)], "OnStart hook failed"⟩]
    ∧ l.emitted (.OnStopExecuted f c d (some m))
        = [⟨l.errorLevel.getD ErrorLevel,
            [("callee", .str f), ("caller", .str c), ("error", .str m)], "OnStop hook failed"⟩]
    ∧ Duration.String 3000000 = "3ms" := by
  refine ⟨?_, ?_, ?_, ?_, ?_, ?_, by decide⟩ <;>
    simp [ZerologLogger.emitted, ZerologLogger.log, ZerologLogger.LogEvent,
      ZerologLogger.errorSeverity]

/-! ## Severity of the emitted records -/

/-- C2, counterexample: a `Provided` event that carries an error and one output type name,
on a logger with `logLevel` info and no `UseErrorLevel` call, emits a record ("provided")
whose severity is info and not zerolog's `ErrorLevel`. -/
theorem C2_provided_with_error_emits_at_logLevel :
    (Event.Provided "NewBuffer()" [] [] ["*Buffer"] "" (some "boom") false).err = some "boom"
    ∧ ∃ r ∈ ((ZerologLogger.ofLogger (newZerologObservableLogger DebugLevel)).UseLogLevel
          InfoLevel).emitted (.Provided "NewBuffer()" [] [] ["*Buffer"] "" (some "boom") false),
        r.message = "provided" ∧ r.level = InfoLevel ∧ r.level ≠ ErrorLevel := by
  decide

/-- C2, amended: for an event whose error attribute is non-nil, with `n` output type names
(`n = 0` for every variant other than `Provided`, `Replaced`, `Decorated`), `LogEvent`
emits `n + 1` records; every record after the first `n` (the one record of the error path)
has the error severity, `errorLevel` when set and zerolog's `ErrorLevel` otherwise,
whatever `logLevel` is; the first `n` records, one for each output type name, have
severity `logLevel`. -/
theorem C2_error_record_severity (l : ZerologLogger) (ev : Event) (m : String)
    (h : ev.err = some m) :
    (l.emitted ev).length = ev.outputTypeNames.length + 1
    ∧ (∀ r ∈ (l.emitted ev).drop ev.outputTypeNames.length,
        r.level = l.errorLevel.getD ErrorLevel)
    ∧ (∀ r ∈ (l.emitted ev).take ev.outputTypeNames.length, r.level = l.logLevel) := by
  cases ev <;> simp [Event.err] at h <;> subst h <;>
    simp [ZerologLogger.emitted, ZerologLogger.log, ZerologLogger.LogEvent,
      Event.outputTypeNames, ZerologLogger.errorSeverity]

/-- C2, witness: the amended statement at a `Replaced` event with two output type names and
an error, after `UseErrorLevel(WarnLevel)`. -/
theorem C2_error_record_severity_witness :
    (Event.Replaced ["A", "B"] [] [] "m" (some "boom")).err = some "boom"
    ∧ (((ZerologLogger.ofLogger (newZerologObservableLogger DebugLevel)).UseErrorLevel
          WarnLevel).emitted (.Replaced ["A", "B"] [] [] "m" (some "boom"))).length
        = (Event.Replaced ["A", "B"] [] [] "m" (some "boom")).outputTypeNames.length + 1 :=
  ⟨rfl, (C2_error_record_severity
    ((ZerologLogger.ofLogger (newZerologObservableLogger DebugLevel)).UseErrorLevel WarnLevel)
    (.Replaced ["A", "B"] [] [] "m" (some "boom")) "boom" rfl).1⟩

/-- C3, counterexample: `RollingBack` with a nil `StartErr`, on a logger with `logLevel`
info and no `UseErrorLevel` call, emits its record at zerolog's `ErrorLevel`, not at
`logLevel`. -/
theorem C3_rollingBack_nil_emits_at_error_level :
    (Event.RollingBack none).err = none
    ∧ ((ZerologLogger.ofLogger (newZerologObservableLogger DebugLevel)).UseLogLevel
          InfoLevel).emitted (.RollingBack none)
        = [⟨ErrorLevel, [], "start failed, rolling back"⟩]
    ∧ ErrorLevel ≠ ((ZerologLogger.ofLogger (newZerologObservableLogger DebugLevel)).UseLogLevel
          InfoLevel).logLevel := by
  decide

/-- C3, amended: for an event other than `RollingBack` whose error attribute is nil or that
has no error attribute, every record `LogEvent` emits has severity `logLevel`, whatever
`errorLevel` is; `RollingBack` emits its one record at the error severity, with a nil
`StartErr` (then without error field) as with any other. -/
theorem C3_non_error_record_severity (l : ZerologLogger) (ev : Event) (h : ev.err = none)
    (hrb : ev ≠ .RollingBack none) :
    (∀ r ∈ l.emitted ev, r.level = l.logLevel)
    ∧ l.emitted (.RollingBack none)
        = [⟨l.errorLevel.getD ErrorLevel, [], "start failed, rolling back"⟩]
    ∧ ∀ s : Option String,
        (l.emitted (.RollingBack s)).map Record.level = [l.errorLevel.getD ErrorLevel] := by
  refine ⟨?_, by simp [ZerologLogger.emitted, ZerologLogger.log, ZerologLogger.LogEvent,
    ZerologLogger.errorSeverity], by simp [ZerologLogger.emitted, ZerologLogger.log,
    ZerologLogger.LogEvent, ZerologLogger.errorSeverity]⟩
  cases ev <;> simp [Event.err] at h <;> try subst h
  all_goals first
    | exact absurd rfl hrb
    | (simp [ZerologLogger.emitted, ZerologLogger.log, ZerologLogger.LogEvent]; done)
    | (rename_i s; cases s <;>
        simp [ZerologLogger.emitted, ZerologLogger.log, ZerologLogger.LogEvent])

/-- C3, witness: the amended statement at an `Invoking` event after
`UseErrorLevel(WarnLevel)`. -/
theorem C3_non_error_record_severity_witness :
    (Event.Invoking "bytes.NewBuffer()" "myModule").err = none
    ∧ Event.Invoking "bytes.NewBuffer()" "myModule" ≠ .RollingBack none
    ∧ ∀ r ∈ ((ZerologLogger.ofLogger (newZerologObservableLogger DebugLevel)).UseErrorLevel
          WarnLevel).emitted (.Invoking "bytes.NewBuffer()" "myModule"),
        r.level = ((ZerologLogger.ofLogger (newZerologObservableLogger DebugLevel)).UseErrorLevel
          WarnLevel).logLevel :=
  ⟨rfl, by decide, (C3_non_error_record_severity
    ((ZerologLogger.ofLogger (newZerologObservableLogger DebugLevel)).UseErrorLevel WarnLevel)
    (.Invoking "bytes.NewBuffer()" "myModule") rfl (by decide)).1⟩

/-! ## The default level -/

/-- C4, the code at the failing input: on `&ZerologLogger{Logger: core}` (no `UseLogLevel`
call) `LogEvent(OnStartExecuting{...})` emits its record at the zero value of `Level`,
which is zerolog's `DebugLevel` and not `InfoLevel`: behind a debug observer the written
line has level "debug", and behind an info observer nothing is delivered. -/
theorem C4_default_logLevel_is_debug :
    (ZerologLogger.ofLogger (newZerologObservableLogger DebugLevel)).delivered
        (.OnStartExecuting "hook.onStart" "bytes.NewBuffer")
      = [⟨DebugLevel, [("callee", .str "hook.onStart"), ("caller", .str "bytes.NewBuffer")],
          "OnStart hook executing"⟩]
    ∧ ((ZerologLogger.ofLogger (newZerologObservableLogger DebugLevel)).delivered
        (.OnStartExecuting "hook.onStart" "bytes.NewBuffer")).map Record.levelField
      = [some "debug"]
    ∧ DebugLevel ≠ InfoLevel
    ∧ (ZerologLogger.ofLogger (newZerologObservableLogger InfoLevel)).delivered
        (.OnStartExecuting "hook.onStart" "bytes.NewBuffer") = [] := by
  decide

/-! ## Omitted fields -/

/-- C5, counterexample: the `Invoked` event of the tests, whose `Trace` is the empty
string, emits a record that has the key stack (with the empty string as its value); and
`OnStartExecuting` with empty names emits the keys callee and caller. -/
theorem C5_empty_string_fields_are_emitted :
    (ZerologLogger.ofLogger (newZerologObservableLogger DebugLevel)).emitted
        (.Invoked "bytes.NewBuffer()" "" (some "some error") "")
      = [⟨ErrorLevel, [("error", .str "some error"), ("stack", .str ""),
          ("function", .str "bytes.NewBuffer()")], "invoke failed"⟩]
    ∧ (∃ r ∈ (ZerologLogger.ofLogger (newZerologObservableLogger DebugLevel)).emitted
        (.Invoked "bytes.NewBuffer()" "" (some "some error") ""), "stack" ∈ r.keys)
    ∧ (∃ r ∈ (ZerologLogger.ofLogger (newZerologObservableLogger DebugLevel)).emitted
        (.OnStartExecuting "" ""), "callee" ∈ r.keys ∧ "caller" ∈ r.keys) := by
  decide

/-- C5, amended: in every record `LogEvent` emits, the key module is absent when the
event's `ModuleName` is the empty string, and the key private is absent when the event's
`Private` flag is false.  (The other string fields go through `Str` and are emitted also
when empty.) -/
theorem C5_module_and_private_omitted (l : ZerologLogger) (ev : Event) (r : Record)
    (hr : r ∈ l.emitted ev) :
    (ev.moduleName = some "" → "module" ∉ r.keys)
    ∧ (ev.isPrivate = some false → "private" ∉ r.keys) := by
  refine ⟨fun hm => ?_, fun hp => ?_⟩
  · cases ev with
    | Supplied t st mt mn e | Replaced ts st mt mn e | Decorated d st mt mn ts e
    | Run n k mn d e | Invoked f mn e tr =>
      simp [Event.moduleName] at hm; subst hm
      cases e <;>
        simp [ZerologLogger.emitted, ZerologLogger.log, ZerologLogger.LogEvent,
          maybeStringField_fields] at hr
      all_goals first
        | (subst hr; simp [Record.keys])
        | (rcases hr with ⟨a, -, hr⟩ | hr <;> subst hr <;> simp [Record.keys])
        | (obtain ⟨a, -, hr⟩ := hr; subst hr; simp [Record.keys])
    | Provided c st mt ts mn e p =>
      simp [Event.moduleName] at hm; subst hm
      cases e <;>
        simp [ZerologLogger.emitted, ZerologLogger.log, ZerologLogger.LogEvent,
          maybeStringField_fields, maybeBoolField_fields] at hr
      · obtain ⟨a, -, hr⟩ := hr
        subst hr
        cases p <;> simp [Record.keys]
      · rcases hr with ⟨a, -, hr⟩ | hr <;> subst hr
        · cases p <;> simp [Record.keys]
        · simp [Record.keys]
    | Invoking f mn =>
      simp [Event.moduleName] at hm; subst hm
      simp [ZerologLogger.emitted, ZerologLogger.log, ZerologLogger.LogEvent,
        maybeStringField_fields] at hr
      subst hr; simp [Record.keys]
    | _ => simp [Event.moduleName] at hm
  · cases ev with
    | Provided c st mt ts mn e p =>
      simp [Event.isPrivate] at hp; subst hp
      cases e <;>
        simp [ZerologLogger.emitted, ZerologLogger.log, ZerologLogger.LogEvent,
          maybeStringField_fields, maybeBoolField_fields] at hr
      · obtain ⟨a, -, hr⟩ := hr
        subst hr
        by_cases hmn : mn = "" <;> simp [Record.keys, hmn]
      · rcases hr with ⟨a, -, hr⟩ | hr <;> subst hr
        · by_cases hmn : mn = "" <;> simp [Record.keys, hmn]
        · simp [Record.keys]
    | _ => simp [Event.isPrivate] at hp

/-- C5, witness: the amended statement at the `Provide` event of the tests with an empty
`ModuleName`. -/
theorem C5_module_and_private_omitted_witness :
    (⟨0, [("constructor", .str "bytes.NewBuffer()"), ("stacktrace", .strs ["main.main"]),
        ("moduletrace", .strs ["main.main"]), ("type", .str "*bytes.Buffer")], "provided"⟩ : Record)
      ∈ (ZerologLogger.ofLogger (newZerologObservableLogger DebugLevel)).emitted
        (.Provided "bytes.NewBuffer()" ["main.main"] ["main.main"] ["*bytes.Buffer"] "" none false)
    ∧ "module" ∉ Record.keys ⟨0, [("constructor", .str "bytes.NewBuffer()"),
        ("stacktrace", .strs ["main.main"]), ("moduletrace", .strs ["main.main"]),
        ("type", .str "*bytes.Buffer")], "provided"⟩
    ∧ "private" ∉ Record.keys ⟨0, [("constructor", .str "bytes.NewBuffer()"),
        ("stacktrace", .strs ["main.main"]), ("moduletrace", .strs ["main.main"]),
        ("type", .str "*bytes.Buffer")], "provided"⟩ :=
  have h := C5_module_and_private_omitted
    (ZerologLogger.ofLogger (newZerologObservableLogger DebugLevel))
    (.Provided "bytes.NewBuffer()" ["main.main"] ["main.main"] ["*bytes.Buffer"] "" none false)
    ⟨0, [("constructor", .str "bytes.NewBuffer()"), ("stacktrace", .strs ["main.main"]),
        ("moduletrace", .strs ["main.main"]), ("type", .str "*bytes.Buffer")], "provided"⟩
    (by decide)
  ⟨by decide, h.1 rfl, h.2 rfl⟩

/-! ## Events with output type names -/

theorem delivered_eq_emitted (l : ZerologLogger) (ev : Event)
    (hall : ∀ e ∈ l.log ev, e.written = true) : l.delivered ev = l.emitted ev := by
  unfold ZerologLogger.delivered ZerologLogger.emitted
  rw [List.filter_eq_self.mpr hall]

theorem emitted_Provided (l : ZerologLogger) (c : String) (st mt ts : List String) (mn : String)
    (err : Option String) (p : Bool) :
    l.emitted (.Provided c st mt ts mn err p)
      = ts.map (fun t => ⟨l.logLevel,
          [("constructor", .str c), ("stacktrace", .strs st), ("moduletrace", .strs mt)]
            ++ (if mn = "" then [] else [("module", .str mn)]) ++ [("type", .str t)]
            ++ (if p then [("private", .bool true)] else []), "provided"⟩)
        ++ err.toList.map (fun m => ⟨l.errorSeverity,
          [("stacktrace", .strs st), ("moduletrace", .strs mt), ("error", .str m)],
          "error encountered while applying options"⟩) := by
  cases err <;>
    simp [ZerologLogger.emitted, ZerologLogger.log, ZerologLogger.LogEvent,
      maybeStringField_fields, maybeBoolField_fields, Function.comp_def]

theorem emitted_Replaced (l : ZerologLogger) (ts st mt : List String) (mn : String)
    (err : Option String) :
    l.emitted (.Replaced ts st mt mn err)
      = ts.map (fun t => ⟨l.logLevel,
          [("stacktrace", .strs st), ("moduletrace", .strs mt)]
            ++ (if mn = "" then [] else [("module", .str mn)]) ++ [("type", .str t)],
          "replaced"⟩)
        ++ err.toList.map (fun m => ⟨l.errorSeverity,
          [("stacktrace", .strs st), ("moduletrace", .strs mt)]
            ++ (if mn = "" then [] else [("module", .str mn)]) ++ [("error", .str m)],
          "error encountered while replacing"⟩) := by
  cases err <;>
    simp [ZerologLogger.emitted, ZerologLogger.log, ZerologLogger.LogEvent,
      maybeStringField_fields, Function.comp_def]

theorem emitted_Decorated (l : ZerologLogger) (d : String) (st mt : List String) (mn : String)
    (ts : List String) (err : Option String) :
    l.emitted (.Decorated d st mt mn ts err)
      = ts.map (fun t => ⟨l.logLevel,
          [("decorator", .str d), ("stacktrace", .strs st), ("moduletrace", .strs mt)]
            ++ (if mn = "" then [] else [("module", .str mn)]) ++ [("type", .str t)],
          "decorated"⟩)
        ++ err.toList.map (fun m => ⟨l.errorSeverity,
          [("stacktrace", .strs st), ("moduletrace", .strs mt)]
            ++ (if mn = "" then [] else [("module", .str mn)]) ++ [("error", .str m)],
          "error encountered while applying options"⟩) := by
  cases err <;>
    simp [ZerologLogger.emitted, ZerologLogger.log, ZerologLogger.LogEvent,
      maybeStringField_fields, Function.comp_def]

/-- C6: for a `Provided`, `Replaced` or `Decorated` event with output type names
`t1..tn`, when the logger filters none of its records, `LogEvent` delivers `n` records if
`Err` is nil and `n + 1` if it is not; the i-th of the first `n` has message "provided",
"replaced" or "decorated" and type `ti`; the extra record is the last one and carries the
error. -/
theorem C6_fan_out_records (l : ZerologLogger) (ev : Event)
    (hall : ∀ e ∈ l.log ev, e.written = true) :
    (∀ c st mt ts mn err p, ev = .Provided c st mt ts mn err p →
        fanOutShape "provided" ts err (l.delivered ev))
    ∧ (∀ ts st mt mn err, ev = .Replaced ts st mt mn err →
        fanOutShape "replaced" ts err (l.delivered ev))
    ∧ (∀ d st mt mn ts err, ev = .Decorated d st mt mn ts err →
        fanOutShape "decorated" ts err (l.delivered ev)) := by
  rw [delivered_eq_emitted l ev hall]
  refine ⟨?_, ?_, ?_⟩
  · rintro c st mt ts mn err p rfl
    rw [emitted_Provided]
    cases err <;> by_cases hmn : mn = "" <;> cases p <;>
      simp [fanOutShape, Record.get?, List.lookup, hmn, Function.comp_def]
  · rintro ts st mt mn err rfl
    rw [emitted_Replaced]
    cases err <;> by_cases hmn : mn = "" <;>
      simp [fanOutShape, Record.get?, List.lookup, hmn, Function.comp_def]
  · rintro d st mt mn ts err rfl
    rw [emitted_Decorated]
    cases err <;> by_cases hmn : mn = "" <;>
      simp [fanOutShape, Record.get?, List.lookup, hmn, Function.comp_def]

/-- C6, witness: a `Provided` event with two output type names and an error, behind a
debug observer, delivers 2 + 1 = 3 records of the stated shape. -/
theorem C6_fan_out_records_witness :
    (∀ e ∈ (ZerologLogger.ofLogger (newZerologObservableLogger DebugLevel)).log
        (.Provided "NewBuffer()" [] [] ["A", "B"] "m" (some "boom") false), e.written = true)
    ∧ fanOutShape "provided" ["A", "B"] (some "boom")
        ((ZerologLogger.ofLogger (newZerologObservableLogger DebugLevel)).delivered
          (.Provided "NewBuffer()" [] [] ["A", "B"] "m" (some "boom") false))
    ∧ ((ZerologLogger.ofLogger (newZerologObservableLogger DebugLevel)).delivered
          (.Provided "NewBuffer()" [] [] ["A", "B"] "m" (some "boom") false)).length = 3 :=
  ⟨by decide,
    (C6_fan_out_records (ZerologLogger.ofLogger (newZerologObservableLogger DebugLevel))
      (.Provided "NewBuffer()" [] [] ["A", "B"] "m" (some "boom") false) (by decide)).1
      "NewBuffer()" [] [] ["A", "B"] "m" (some "boom") false rfl,
    by decide⟩

/-- C7: every record of a `Provided` event with a nil error has message "provided" and
the keys constructor, type, stacktrace and moduletrace (the two traces as lists, also when
empty); it has the key module exactly when `ModuleName` is non-empty and the key private,
with value true, exactly when `Private` is true.  The event of scenario 3 yields exactly
one record, with the six fields listed (in the order they are attached). -/
theorem C7_provided_record_fields (l : ZerologLogger) (c : String) (st mt ts : List String)
    (mn : String) (p : Bool) :
    (l.emitted (.Provided c st mt ts mn none p)).length = ts.length
    ∧ (∀ r ∈ l.emitted (.Provided c st mt ts mn none p),
        r.message = "provided"
        ∧ r.get? "constructor" = some (.str c)
        ∧ (∃ t ∈ ts, r.get? "type" = some (.str t))
        ∧ r.get? "stacktrace" = some (.strs st)
        ∧ r.get? "moduletrace" = some (.strs mt)
        ∧ ("constructor" ∈ r.keys ∧ "type" ∈ r.keys ∧ "stacktrace" ∈ r.keys
            ∧ "moduletrace" ∈ r.keys)
        ∧ ("module" ∈ r.keys ↔ mn ≠ "")
        ∧ ("private" ∈ r.keys ↔ p = true)
        ∧ (p = true → r.get? "private" = some (.bool true)))
    ∧ l.emitted (.Provided "NewBuffer()" [] [] ["*Buffer"] "m" none true)
        = [⟨l.logLevel, [("constructor", .str "NewBuffer()"), ("stacktrace", .strs []),
            ("moduletrace", .strs []), ("module", .str "m"), ("type", .str "*Buffer"),
            ("private", .bool true)], "provided"⟩] := by
  refine ⟨?_, ?_, ?_⟩
  · simp [emitted_Provided]
  · intro r hr
    rw [emitted_Provided] at hr
    simp only [Option.toList, List.map_nil, List.append_nil, List.mem_map] at hr
    obtain ⟨t, ht, rfl⟩ := hr
    by_cases hmn : mn = "" <;> cases p <;>
      simp [Record.get?, Record.keys, List.lookup, hmn, ht]
  · simp [emitted_Provided]

/-- C8: `Invoked`, `Stopped` and `RolledBack` with a nil `Err` make `LogEvent` return
without emitting any record; with a non-nil `Err` they emit exactly one record at the
error severity with message "invoke failed", "stop failed" and "rollback failed", carrying
the error, and for `Invoked` also stack and function, and module only when `ModuleName`
is non-empty. -/
theorem C8_outcome_only_events (l : ZerologLogger) (f mn tr m : String) :
    l.LogEvent (.Invoked f mn none tr) = .ok []
    ∧ l.LogEvent (.Stopped none) = .ok []
    ∧ l.LogEvent (.RolledBack none) = .ok []
    ∧ l.emitted (.Invoked f mn (some m) tr)
        = [⟨l.errorLevel.getD ErrorLevel,
            [("error", .str m), ("stack", .str tr), ("function", .str f)]
              ++ (if mn = "" then [] else [("module", .str mn)]), "invoke failed"⟩]
    ∧ l.emitted (.Stopped (some m))
        = [⟨l.errorLevel.getD ErrorLevel, [("error", .str m)], "stop failed"⟩]
    ∧ l.emitted (.RolledBack (some m))
        = [⟨l.errorLevel.getD ErrorLevel, [("error", .str m)], "rollback failed"⟩] := by
  simp [ZerologLogger.emitted, ZerologLogger.log, ZerologLogger.LogEvent,
    maybeStringField_fields, ZerologLogger.errorSeverity]

/-! ## Delivery to the sink -/

theorem log_written (l : ZerologLogger) (ev : Event) :
    ∀ e ∈ l.log ev,
      e.written = (decide (e.record.level ≠ Disabled) && l.Logger.should e.record.level) := by
  cases ev with
  | Stopping s => cases s <;> simp [ZerologLogger.log, ZerologLogger.LogEvent]
  | OnStartExecuting f c | OnStopExecuting f c | Invoking f mn | Unhandled =>
    simp [ZerologLogger.log, ZerologLogger.LogEvent]
  | OnStartExecuted f c d e | OnStopExecuted f c d e | Supplied t st mt mn e
  | Provided c st mt ts mn e p | Replaced ts st mt mn e | Decorated d st mt mn ts e
  | Run n k mn d e | Invoked f mn e tr | Stopped e | RollingBack e | RolledBack e
  | Started e | LoggerInitialized e c =>
    cases e <;> simp [ZerologLogger.log, ZerologLogger.LogEvent]
    all_goals
      rintro e (⟨a, -, rfl⟩ | rfl) <;> simp

theorem delivered_eq_filter (l : ZerologLogger) (ev : Event) :
    l.delivered ev
      = (l.emitted ev).filter
          (fun r => decide (r.level ≠ Disabled) && l.Logger.should r.level) := by
  unfold ZerologLogger.delivered ZerologLogger.emitted
  rw [List.filter_map]
  congr 1
  apply List.filter_congr
  intro e he
  simpa using log_written l ev e he

theorem emitted_congr (l k : ZerologLogger) (ev : Event) (h1 : l.logLevel = k.logLevel)
    (h2 : l.errorLevel = k.errorLevel) : l.emitted ev = k.emitted ev := by
  have h3 : l.errorSeverity = k.errorSeverity := by simp [ZerologLogger.errorSeverity, h2]
  cases ev with
  | Stopping s => cases s <;> simp [ZerologLogger.emitted, ZerologLogger.log,
      ZerologLogger.LogEvent, maybeStringField_fields, maybeBoolField_fields, h1, h3]
  | OnStartExecuting f c | OnStopExecuting f c | Invoking f mn | Unhandled =>
    simp [ZerologLogger.emitted, ZerologLogger.log, ZerologLogger.LogEvent,
      maybeStringField_fields, maybeBoolField_fields, h1, h3]
  | OnStartExecuted f c d e | OnStopExecuted f c d e | Supplied t st mt mn e
  | Provided c st mt ts mn e p | Replaced ts st mt mn e | Decorated d st mt mn ts e
  | Run n k mn d e | Invoked f mn e tr | Stopped e | RollingBack e | RolledBack e
  | Started e | LoggerInitialized e c =>
    cases e <;> simp [ZerologLogger.emitted, ZerologLogger.log, ZerologLogger.LogEvent,
      maybeStringField_fields, maybeBoolField_fields, h1, h3]

theorem emitted_level (l : ZerologLogger) (ev : Event) :
    ∀ r ∈ l.emitted ev, r.level = l.logLevel ∨ r.level = l.errorSeverity := by
  cases ev with
  | Stopping s => cases s <;> simp [ZerologLogger.emitted, ZerologLogger.log,
      ZerologLogger.LogEvent]
  | OnStartExecuting f c | OnStopExecuting f c | Invoking f mn | Unhandled =>
    simp [ZerologLogger.emitted, ZerologLogger.log, ZerologLogger.LogEvent]
  | OnStartExecuted f c d e | OnStopExecuted f c d e | Supplied t st mt mn e
  | Provided c st mt ts mn e p | Replaced ts st mt mn e | Decorated d st mt mn ts e
  | Run n k mn d e | Invoked f mn e tr | Stopped e | RollingBack e | RolledBack e
  | Started e | LoggerInitialized e c =>
    cases e <;> simp [ZerologLogger.emitted, ZerologLogger.log, ZerologLogger.LogEvent]
    all_goals
      rintro r (⟨a, -, rfl⟩ | rfl) <;> simp

theorem should_of_threshold_le (core : Logger) (lvl : Level) (h : core.threshold ≤ lvl) :
    core.should lvl = true := by
  unfold Logger.threshold at h
  have h1 := le_trans (le_max_left _ _) h
  have h2 := le_trans (le_max_right _ _) h
  simp [Logger.should, not_lt.mpr h1, not_lt.mpr h2]

theorem should_of_lt_threshold (core : Logger) (lvl : Level) (h : lvl < core.threshold) :
    core.should lvl = false := by
  unfold Logger.threshold at h
  rcases lt_max_iff.mp h with h1 | h1 <;> simp [Logger.should, h1]

theorem lookup_error_after_module (mn m : String) :
    List.lookup "error" ((if mn = "" then [] else [("module", Value.str mn)])
      ++ [("error", Value.str m)]) = some (Value.str m) := by
  by_cases h : mn = "" <;> simp [h, List.lookup]

theorem emitted_error_split (l : ZerologLogger) (ev : Event) (m : String)
    (h : ev.err = some m) :
    (l.emitted ev).length = ev.outputTypeNames.length + 1
    ∧ (∀ r ∈ (l.emitted ev).drop ev.outputTypeNames.length,
        r.level = l.errorSeverity ∧ r.get? "error" = some (.str m))
    ∧ (∀ r ∈ (l.emitted ev).take ev.outputTypeNames.length, r.level = l.logLevel) := by
  cases ev <;> simp [Event.err] at h <;> subst h <;>
    simp [ZerologLogger.emitted, ZerologLogger.log, ZerologLogger.LogEvent,
      Event.outputTypeNames, Record.get?, maybeStringField_fields, List.lookup,
      lookup_error_after_module]

theorem emitted_level_of_no_error (l : ZerologLogger) (ev : Event) (h : ev.err = none)
    (hrb : ev ≠ .RollingBack none) : ∀ r ∈ l.emitted ev, r.level = l.logLevel := by
  cases ev <;> simp [Event.err] at h <;> try subst h
  all_goals first
    | exact absurd rfl hrb
    | (simp [ZerologLogger.emitted, ZerologLogger.log, ZerologLogger.LogEvent]; done)
    | (rename_i s; cases s <;>
        simp [ZerologLogger.emitted, ZerologLogger.log, ZerologLogger.LogEvent])

/-- C9: behind a logger whose threshold is info, after `UseLogLevel(DebugLevel)` and no
`UseErrorLevel` call, what `LogEvent` delivers is what it delivers behind a logger that
filters nothing, restricted to the records of the error path (those at `ErrorLevel`), with
their message and fields unchanged: exactly one record, carrying the error, for an event
whose error attribute is set, and none for an event without error (other than
`RollingBack`, whose record is always on the error path).  After `UseLogLevel(DebugLevel)`
and `UseErrorLevel(DebugLevel)` no event delivers any record. -/
theorem C9_info_threshold_delivery (core : Logger) (hthr : core.threshold = InfoLevel)
    (ev : Event) :
    (∀ wide : Logger, wide.threshold ≤ DebugLevel →
        ((ZerologLogger.ofLogger core).UseLogLevel DebugLevel).delivered ev
          = ((((ZerologLogger.ofLogger wide).UseLogLevel DebugLevel).delivered ev).filter
              (fun r => decide (r.level = ErrorLevel))))
    ∧ (∀ m, ev.err = some m →
        ∃ r, ((ZerologLogger.ofLogger core).UseLogLevel DebugLevel).delivered ev = [r]
          ∧ r ∈ ((ZerologLogger.ofLogger core).UseLogLevel DebugLevel).emitted ev
          ∧ r.level = ErrorLevel ∧ r.get? "error" = some (.str m))
    ∧ (ev.err = none → ev ≠ .RollingBack none →
        ((ZerologLogger.ofLogger core).UseLogLevel DebugLevel).delivered ev = [])
    ∧ (((ZerologLogger.ofLogger core).UseLogLevel DebugLevel).UseErrorLevel
        DebugLevel).delivered ev = [] := by
  have hd : core.should DebugLevel = false :=
    should_of_lt_threshold core DebugLevel (by rw [hthr]; decide)
  have he : core.should ErrorLevel = true :=
    should_of_threshold_le core ErrorLevel (by rw [hthr]; decide)
  have hED : ErrorLevel ≠ Disabled := by decide
  have hDD : DebugLevel ≠ Disabled := by decide
  have hDE : DebugLevel ≠ ErrorLevel := by decide
  refine ⟨?_, ?_, ?_, ?_⟩
  · intro wide hwide
    have hod : wide.should DebugLevel = true := should_of_threshold_le wide DebugLevel hwide
    have hoe : wide.should ErrorLevel = true :=
      should_of_threshold_le wide ErrorLevel (le_trans hwide (by decide))
    rw [delivered_eq_filter, delivered_eq_filter, List.filter_filter,
      emitted_congr ((ZerologLogger.ofLogger wide).UseLogLevel DebugLevel)
        ((ZerologLogger.ofLogger core).UseLogLevel DebugLevel) ev rfl rfl]
    apply List.filter_congr
    intro r hr
    rcases emitted_level _ _ r hr with h | h <;>
      simp [ZerologLogger.UseLogLevel, ZerologLogger.ofLogger, ZerologLogger.errorSeverity] at h <;>
      simp [h, ZerologLogger.UseLogLevel, ZerologLogger.ofLogger, hd, he, hod, hoe, hED, hDD, hDE]
  · intro m hm
    obtain ⟨hlen, hdrop, htake⟩ :=
      emitted_error_split ((ZerologLogger.ofLogger core).UseLogLevel DebugLevel) ev m hm
    have hlen2 : (List.drop ev.outputTypeNames.length
        (((ZerologLogger.ofLogger core).UseLogLevel DebugLevel).emitted ev)).length = 1 := by
      rw [List.length_drop, hlen]; omega
    obtain ⟨r, hr⟩ := List.length_eq_one.mp hlen2
    have hrl := hdrop r (by rw [hr]; simp)
    have hsev : ((ZerologLogger.ofLogger core).UseLogLevel DebugLevel).errorSeverity
        = ErrorLevel := rfl
    rw [hsev] at hrl
    refine ⟨r, ?_, ?_, hrl.1, hrl.2⟩
    · rw [delivered_eq_filter,
        ← List.take_append_drop ev.outputTypeNames.length
          (((ZerologLogger.ofLogger core).UseLogLevel DebugLevel).emitted ev),
        List.filter_append, hr]
      have h1 : List.filter (fun r => decide (r.level ≠ Disabled)
          && ((ZerologLogger.ofLogger core).UseLogLevel DebugLevel).Logger.should r.level)
          (List.take ev.outputTypeNames.length
            (((ZerologLogger.ofLogger core).UseLogLevel DebugLevel).emitted ev)) = [] := by
        apply List.filter_eq_nil_iff.mpr
        intro q hq
        have hql := htake q hq
        simp [ZerologLogger.UseLogLevel, ZerologLogger.ofLogger] at hql
        simp [hql, ZerologLogger.UseLogLevel, ZerologLogger.ofLogger, hd]
      rw [h1]
      simp [hrl.1, ZerologLogger.UseLogLevel, ZerologLogger.ofLogger, he, hED]
    · have hmem : r ∈ List.drop ev.outputTypeNames.length
          (((ZerologLogger.ofLogger core).UseLogLevel DebugLevel).emitted ev) := by
        rw [hr]; simp
      exact List.mem_of_mem_drop hmem
  · intro hnone hrb
    rw [delivered_eq_filter]
    apply List.filter_eq_nil_iff.mpr
    intro r hr
    have hrl := emitted_level_of_no_error _ ev hnone hrb r hr
    simp [ZerologLogger.UseLogLevel, ZerologLogger.ofLogger] at hrl
    simp [hrl, ZerologLogger.UseLogLevel, ZerologLogger.ofLogger, hd]
  · rw [delivered_eq_filter]
    apply List.filter_eq_nil_iff.mpr
    intro r hr
    rcases emitted_level _ _ r hr with h | h <;>
      simp [ZerologLogger.UseLogLevel, ZerologLogger.UseErrorLevel, ZerologLogger.ofLogger,
        ZerologLogger.errorSeverity] at h <;>
      simp [h, ZerologLogger.UseLogLevel, ZerologLogger.UseErrorLevel, ZerologLogger.ofLogger, hd]

/-- C9, witness: the logger of the test "info observer, log at debug" and the
`OnStopExecuted` event carrying an error. -/
theorem C9_info_threshold_delivery_witness :
    (newZerologObservableLogger InfoLevel).threshold = InfoLevel
    ∧ (∃ r, ((ZerologLogger.ofLogger (newZerologObservableLogger InfoLevel)).UseLogLevel
          DebugLevel).delivered (.OnStopExecuted "hook.onStart1" "bytes.NewBuffer" 0
            (some "some error")) = [r]
        ∧ r ∈ ((ZerologLogger.ofLogger (newZerologObservableLogger InfoLevel)).UseLogLevel
          DebugLevel).emitted (.OnStopExecuted "hook.onStart1" "bytes.NewBuffer" 0
            (some "some error"))
        ∧ r.level = ErrorLevel ∧ r.get? "error" = some (.str "some error"))
    ∧ (((ZerologLogger.ofLogger (newZerologObservableLogger InfoLevel)).UseLogLevel
          DebugLevel).UseErrorLevel DebugLevel).delivered
        (.OnStopExecuted "hook.onStart1" "bytes.NewBuffer" 0 (some "some error")) = [] :=
  have h := C9_info_threshold_delivery (newZerologObservableLogger InfoLevel) (by decide)
    (.OnStopExecuted "hook.onStart1" "bytes.NewBuffer" 0 (some "some error"))
  ⟨by decide, h.2.1 "some error" rfl, h.2.2.2⟩

/-- C10, counterexample: after `UseErrorLevel(Disabled)`, a `Provided` event that carries
an error and one output type name still delivers its "provided" record (here `logLevel`
is info and the threshold is trace); and with threshold debug and
`UseErrorLevel(DebugLevel)` the same event delivers two records, not one. -/
theorem C10_provided_with_error_still_delivers :
    (Event.Provided "NewBuffer()" [] [] ["*Buffer"] "" (some "boom") false).err = some "boom"
    ∧ (((ZerologLogger.ofLogger (newZerologObservableLogger TraceLevel)).UseLogLevel
          InfoLevel).UseErrorLevel Disabled).delivered
        (.Provided "NewBuffer()" [] [] ["*Buffer"] "" (some "boom") false)
      = [⟨InfoLevel, [("constructor", .str "NewBuffer()"), ("stacktrace", .strs []),
          ("moduletrace", .strs []), ("type", .str "*Buffer")], "provided"⟩]
    ∧ (newZerologObservableLogger DebugLevel).threshold = DebugLevel
    ∧ (((ZerologLogger.ofLogger (newZerologObservableLogger DebugLevel)).UseErrorLevel
          DebugLevel).delivered
        (.Provided "NewBuffer()" [] [] ["*Buffer"] "" (some "boom") false)).length = 2 := by
  decide

/-- C10, amended: for an event whose error attribute is set and that has no output type
names (every variant but a `Provided`, `Replaced` or `Decorated` with a non-empty
`OutputTypeNames`): after `UseErrorLevel(Disabled)` `LogEvent` delivers zero records,
whatever `logLevel` and the logger's threshold are; and for every level `L` other than
`Disabled`, with the threshold at `L` and `UseErrorLevel(L)`, `LogEvent` returns normally
and delivers exactly one record, at level `L`, carrying the error. -/
theorem C10_error_level_setting (l : ZerologLogger) (ev : Event) (m : String)
    (herr : ev.err = some m) (hts : ev.outputTypeNames = []) :
    (l.UseErrorLevel Disabled).delivered ev = []
    ∧ ∀ L : Level, L ≠ Disabled → l.Logger.threshold = L →
        ∃ r, (l.UseErrorLevel L).LogEvent ev = .ok [⟨r, true⟩]
          ∧ (l.UseErrorLevel L).delivered ev = [r]
          ∧ r.level = L ∧ r.get? "error" = some (.str m) := by
  have key : ∀ L : Level, ∃ r, (l.UseErrorLevel L).emitted ev = [r] ∧ r.level = L
      ∧ r.get? "error" = some (.str m) := by
    intro L
    obtain ⟨hlen, hdrop, -⟩ := emitted_error_split (l.UseErrorLevel L) ev m herr
    rw [hts] at hlen hdrop
    simp only [List.length_nil, zero_add, List.drop_zero] at hlen hdrop
    obtain ⟨r, hr⟩ := List.length_eq_one.mp hlen
    have := hdrop r (by rw [hr]; simp)
    exact ⟨r, hr, this.1, this.2⟩
  refine ⟨?_, ?_⟩
  · obtain ⟨r, hr, hl, -⟩ := key Disabled
    rw [delivered_eq_filter, hr]
    simp [hl]
  · intro L hL hthr
    obtain ⟨r, hr, hl, hm⟩ := key L
    have hsh : l.Logger.should L = true := should_of_threshold_le _ _ (le_of_eq hthr)
    have hdel : (l.UseErrorLevel L).delivered ev = [r] := by
      rw [delivered_eq_filter, hr]
      simp [hl, hL, ZerologLogger.UseErrorLevel, hsh]
    refine ⟨r, ?_, hdel, hl, hm⟩
    have hlog : ∃ e, (l.UseErrorLevel L).log ev = [e] ∧ e.record = r := by
      unfold ZerologLogger.emitted at hr
      obtain ⟨e, he⟩ := List.length_eq_one.mp
        (by simpa using congrArg List.length hr :
          ((l.UseErrorLevel L).log ev).length = 1)
      refine ⟨e, he, ?_⟩
      rw [he] at hr
      simpa using hr
    obtain ⟨e, he, her⟩ := hlog
    have hw := log_written (l.UseErrorLevel L) ev e (by rw [he]; simp)
    rw [her, hl] at hw
    simp [hL, ZerologLogger.UseErrorLevel, hsh] at hw
    have hee : e = ⟨r, true⟩ := by
      cases e; simp_all
    unfold ZerologLogger.log at he
    split at he
    · rename_i es hes
      rw [hes, he, hee]
    · simp at he

/-- C10, witness: the `OnStopExecuted` event of the test "test setting error log levels",
behind an observer at `FatalLevel`. -/
theorem C10_error_level_setting_witness :
    (Event.OnStopExecuted "hook.onStart1" "bytes.NewBuffer" 0 (some "some error")).err
      = some "some error"
    ∧ (Event.OnStopExecuted "hook.onStart1" "bytes.NewBuffer" 0
        (some "some error")).outputTypeNames = []
    ∧ ((ZerologLogger.ofLogger (newZerologObservableLogger FatalLevel)).UseErrorLevel
        Disabled).delivered
        (.OnStopExecuted "hook.onStart1" "bytes.NewBuffer" 0 (some "some error")) = []
    ∧ ∃ r, ((ZerologLogger.ofLogger (newZerologObservableLogger FatalLevel)).UseErrorLevel
        FatalLevel).LogEvent
          (.OnStopExecuted "hook.onStart1" "bytes.NewBuffer" 0 (some "some error"))
        = .ok [⟨r, true⟩] :=
  have h := C10_error_level_setting
    (ZerologLogger.ofLogger (newZerologObservableLogger FatalLevel))
    (.OnStopExecuted "hook.onStart1" "bytes.NewBuffer" 0 (some "some error")) "some error"
    rfl rfl
  ⟨rfl, rfl, h.1,
    (h.2 FatalLevel (by decide) (by decide)).elim fun r hr => ⟨r, hr.1⟩⟩

/-! ## Panics -/

/-- C11, the code at the failing input: on a `Stopping` event whose `Signal` is nil,
`LogEvent` panics (the call `e.Signal.String()` on a nil interface) on every logger, and
no record is delivered; on every other event of the handled variants, whatever its
attributes hold, it returns normally. -/
theorem C11_stopping_nil_signal_panics (l : ZerologLogger) :
    l.LogEvent (.Stopping none) = .error "invalid memory address or nil pointer dereference"
    ∧ l.delivered (.Stopping none) = []
    ∧ ∀ ev : Event, ev ≠ .Stopping none → ∃ es, l.LogEvent ev = .ok es := by
  refine ⟨rfl, rfl, ?_⟩
  intro ev hev
  cases ev with
  | Stopping s =>
    cases s with
    | none => exact absurd rfl hev
    | some name => exact ⟨_, rfl⟩
  | OnStartExecuting f c | OnStopExecuting f c | Invoking f mn | Unhandled => exact ⟨_, rfl⟩
  | OnStartExecuted f c d e | OnStopExecuted f c d e | Supplied t st mt mn e
  | Provided c st mt ts mn e p | Replaced ts st mt mn e | Decorated d st mt mn ts e
  | Run n k mn d e | Invoked f mn e tr | Stopped e | RollingBack e | RolledBack e
  | Started e | LoggerInitialized e c =>
    cases e <;> exact ⟨_, rfl⟩

/-! ## The custom logger event -/

/-- C12, counterexample: the `LoggerInitialized` event of the tests, with a nil error,
emits the message "initialized custom fxevent.Logger", which is not
"initialized custom logger". -/
theorem C12_success_message_names_fxevent_Logger :
    (ZerologLogger.ofLogger (newZerologObservableLogger DebugLevel)).emitted
        (.LoggerInitialized none "bytes.NewBuffer()")
      = [⟨DebugLevel, [("function", .str "bytes.NewBuffer()")],
          "initialized custom fxevent.Logger"⟩]
    ∧ ∃ r ∈ (ZerologLogger.ofLogger (newZerologObservableLogger DebugLevel)).emitted
        (.LoggerInitialized none "bytes.NewBuffer()"),
        r.message ≠ "initialized custom logger" := by
  decide

/-- C12, amended: a `LoggerInitialized` event with a nil error emits exactly one record at
`logLevel`, with message "initialized custom fxevent.Logger" and the one field function,
the `ConstructorName`; with a non-nil error it emits exactly one record at the error
severity, with message "custom logger initialization failed" and the one field error (no
function field). -/
theorem C12_logger_initialized_records (l : ZerologLogger) (c m : String) :
    l.emitted (.LoggerInitialized none c)
        = [⟨l.logLevel, [("function", .str c)], "initialized custom fxevent.Logger"⟩]
    ∧ l.emitted (.LoggerInitialized (some m) c)
        = [⟨l.errorLevel.getD ErrorLevel, [("error", .str m)],
            "custom logger initialization failed"⟩] := by
  simp [ZerologLogger.emitted, ZerologLogger.log, ZerologLogger.LogEvent,
    ZerologLogger.errorSeverity]

end Fxzerolog
